import Mathlib

/-!
Verification of the relay HTTP frontend server
(`src/iroh-net/src/relay/http/server.rs`).

The Rust source is shallowly embedded: header maps become association
lists of strings, the hyper response builder becomes a list of headers
accumulated in order, stateful handoff becomes an explicit result value,
and the supervisor loop becomes a trace-producing function over a finite
schedule of readiness observations.  Machine integers in the SHA-1
computation are `Nat` reduced modulo `2 ^ 32` at every step.
-/

set_option maxRecDepth 40000

namespace RelayHttp

/-! ## Protocol tokens and paths

The constants `HTTP_UPGRADE_PROTOCOL`, `WEBSOCKET_UPGRADE_PROTOCOL`,
`SUPPORTED_WEBSOCKET_VERSION`, `RELAY_PATH` and `LEGACY_RELAY_PATH` are
imported by `server.rs` from `crate::relay::http`, a module whose file is
not part of the provided sources. -/

/-- Modelled from the spec: the custom relay upgrade token (missing
constant `HTTP_UPGRADE_PROTOCOL` from `crate::relay::http`); scenario S1
shows the token `iroh derp http`. -/
def HTTP_UPGRADE_PROTOCOL : String := "iroh derp http"

/-- Modelled from the spec: the WebSocket upgrade token (missing constant
`WEBSOCKET_UPGRADE_PROTOCOL` from `crate::relay::http`); scenario S2 shows
the token `websocket`. -/
def WEBSOCKET_UPGRADE_PROTOCOL : String := "websocket"

/-- Modelled from the spec: the supported WebSocket version (missing
constant `SUPPORTED_WEBSOCKET_VERSION` from `crate::relay::http`);
scenarios S2/S4 show version `13`. -/
def SUPPORTED_WEBSOCKET_VERSION : String := "13"

/-- Modelled from the spec: the relay endpoint path (missing constant
`RELAY_PATH` from `crate::relay::http`); the spec names `GET /relay`. -/
def RELAY_PATH : String := "/relay"

/-- Modelled from the spec: the legacy relay endpoint path (missing
constant `LEGACY_RELAY_PATH`); the spec names `GET /derp` as the alias. -/
def LEGACY_RELAY_PATH : String := "/derp"

/-- The HTTP upgrade protocol used for relaying (`enum Protocol`). -/
inductive Protocol where
  /-- Relays over the custom relaying protocol with a custom HTTP upgrade header. -/
  | Relay
  /-- Relays over websockets. -/
  | Websocket
deriving DecidableEq, Repr

/-- Source `Protocol::upgrade_header`: the HTTP upgrade header used or expected. -/
def Protocol.upgrade_header : Protocol → String
  | Protocol.Relay => HTTP_UPGRADE_PROTOCOL
  | Protocol.Websocket => WEBSOCKET_UPGRADE_PROTOCOL

/-- Source `Protocol::parse_header`: tries to match the value of an HTTP upgrade
header to figure out which protocol should be initiated.  Header values are
modelled as strings; the byte-wise comparison of the source coincides with
string equality on these ASCII tokens. -/
def Protocol.parse_header (header : String) : Option Protocol :=
  if header = Protocol.Relay.upgrade_header then some Protocol.Relay
  else if header = Protocol.Websocket.upgrade_header then some Protocol.Websocket
  else none

/-! ## SHA-1 and base64

The 101 response for a WebSocket upgrade carries a `Sec-WebSocket-Accept`
header computed by `tungstenite::handshake::derive_accept_key`, an external
dependency defined (RFC 6455) as the base64 encoding of the SHA-1 digest of
the key concatenated with the WebSocket magic GUID.  Both primitives are
implemented here over byte lists, with 32-bit words as `Nat` reduced modulo
`2 ^ 32`. -/

/-- Bytes of an ASCII string (header values and tokens are ASCII, where
UTF-8 bytes coincide with code points). -/
def strBytes (s : String) : List Nat := s.toList.map Char.toNat

/-- Reduction modulo `2 ^ 32`, the 32-bit word quotient. -/
def w32 (x : Nat) : Nat := x % 4294967296

/-- Left rotation of a 32-bit word. -/
def rotl (n x : Nat) : Nat := w32 ((x <<< n) ||| (x >>> (32 - n)))

/-- Big-endian byte decomposition of `x` into `n` bytes. -/
def beBytes (n : Nat) (x : Nat) : List Nat :=
  (List.range n).map (fun i => (x >>> (8 * (n - 1 - i))) % 256)

/-- The sixteen big-endian 32-bit words of a 64-byte block. -/
def wordsOfBlock (block : List Nat) : Array Nat :=
  ((List.range 16).map (fun i =>
    (block.getD (4 * i) 0) <<< 24 ||| (block.getD (4 * i + 1) 0) <<< 16 |||
    (block.getD (4 * i + 2) 0) <<< 8 ||| block.getD (4 * i + 3) 0)).toArray

/-- SHA-1 message schedule: expands sixteen words to eighty. -/
def sha1Schedule (ws : Array Nat) : Array Nat :=
  (List.range 64).foldl (fun arr i =>
    arr.push (rotl 1 ((arr.getD (i + 13) 0) ^^^ (arr.getD (i + 8) 0) ^^^
      (arr.getD (i + 2) 0) ^^^ (arr.getD i 0)))) ws

/-- SHA-1 round function, by round index. -/
def sha1F (t b c d : Nat) : Nat :=
  if t < 20 then (b &&& c) ||| ((b ^^^ 4294967295) &&& d)
  else if t < 40 then b ^^^ c ^^^ d
  else if t < 60 then (b &&& c) ||| (b &&& d) ||| (c &&& d)
  else b ^^^ c ^^^ d

/-- SHA-1 round constants, by round index. -/
def sha1K (t : Nat) : Nat :=
  if t < 20 then 1518500249
  else if t < 40 then 1859775393
  else if t < 60 then 2400959708
  else 3395469782

/-- The five-word SHA-1 chaining state. -/
structure Sha1State where
  a : Nat
  b : Nat
  c : Nat
  d : Nat
  e : Nat
deriving DecidableEq, Repr

/-- One SHA-1 round over the expanded schedule `w`. -/
def sha1Round (w : Array Nat) (s : Sha1State) (t : Nat) : Sha1State :=
  let tmp := w32 (w32 (rotl 5 s.a + sha1F t s.b s.c s.d) + w32 (s.e + sha1K t) + w.getD t 0)
  { a := tmp, b := s.a, c := rotl 30 s.b, d := s.c, e := s.d }

/-- SHA-1 compression of one 64-byte block into the chaining state. -/
def sha1Compress (h : Sha1State) (block : List Nat) : Sha1State :=
  let w := sha1Schedule (wordsOfBlock block)
  let s := (List.range 80).foldl (sha1Round w) h
  { a := w32 (h.a + s.a), b := w32 (h.b + s.b), c := w32 (h.c + s.c),
    d := w32 (h.d + s.d), e := w32 (h.e + s.e) }

/-- SHA-1 padding: a `0x80` byte, zeros to 56 mod 64, and the 64-bit
big-endian bit length. -/
def sha1Pad (msg : List Nat) : List Nat :=
  let len := msg.length
  msg ++ [128] ++ List.replicate ((119 - len % 64) % 64) 0 ++ beBytes 8 (8 * len)

/-- Splits a byte list into 64-byte blocks; the fuel argument makes the
recursion structural so the definition reduces definitionally. -/
def chunks64Aux : Nat → List Nat → List (List Nat)
  | 0, _ => []
  | _, [] => []
  | fuel + 1, a :: l => ((a :: l).take 64) :: chunks64Aux fuel ((a :: l).drop 64)

/-- Splits a byte list into 64-byte blocks. -/
def chunks64 (l : List Nat) : List (List Nat) := chunks64Aux l.length l

/-- SHA-1 digest of a byte list, as 20 bytes. -/
def sha1 (msg : List Nat) : List Nat :=
  let init : Sha1State := ⟨1732584193, 4023233417, 2562383102, 271733878, 3285377520⟩
  let fin := (chunks64 (sha1Pad msg)).foldl sha1Compress init
  beBytes 4 fin.a ++ beBytes 4 fin.b ++ beBytes 4 fin.c ++ beBytes 4 fin.d ++ beBytes 4 fin.e

/-- The standard base64 alphabet. -/
def b64Table : List Char :=
  "ABCDEFGHIJKLMNOPQRSTUVWXYZabcdefghijklmnopqrstuvwxyz0123456789+/".toList

/-- The base64 character for a 6-bit value. -/
def b64Char (n : Nat) : Char := b64Table.getD n 'A'

/-- Base64 encoding of a byte list, as characters with padding. -/
def base64Chars : List Nat → List Char
  | [] => []
  | [a] => [b64Char (a >>> 2), b64Char ((a % 4) <<< 4), '=', '=']
  | [a, b] => [b64Char (a >>> 2), b64Char (((a % 4) <<< 4) ||| (b >>> 4)),
      b64Char ((b % 16) <<< 2), '=']
  | a :: b :: c :: rest =>
      b64Char (a >>> 2) :: b64Char (((a % 4) <<< 4) ||| (b >>> 4)) ::
      b64Char (((b % 16) <<< 2) ||| (c >>> 6)) :: b64Char (c % 64) ::
      base64Chars rest

/-- Base64 encoding of a byte list, as a string. -/
def base64Encode (bs : List Nat) : String := String.mk (base64Chars bs)

/-- The WebSocket magic GUID of RFC 6455 used in the accept-key derivation. -/
def WS_MAGIC : String := "258EAFA5-E914-47DA-95CA-C5AB0DC85B11"

/-- Source `tungstenite::handshake::derive_accept_key` (external dependency
called at the `Sec-WebSocket-Accept` construction): base64 of the SHA-1
digest of the key concatenated with the magic GUID. -/
def derive_accept_key (key : String) : String :=
  base64Encode (sha1 (strBytes key ++ strBytes WS_MAGIC))

/-! ## Requests, responses and the upgrade handler

`ClientConnHandler::call` (`impl Service<Request<Incoming>> for
ClientConnHandler`) inspects only the request headers, builds a response
from a builder pre-populated with the default headers, and, on the success
path, spawns a continuation that waits for the upgraded transport.  The
embedding returns the response together with the action taken. -/

/-- An HTTP/1.1 request as this server consumes it: method, URI path and
header list.  Header values are modelled as ASCII strings. -/
structure HttpRequest where
  method : String
  path : String
  headers : List (String × String)
deriving DecidableEq, Repr

/-- First value of a header, as `HeaderMap::get` returns it. -/
def getHeader (req : HttpRequest) (name : String) : Option String :=
  (req.headers.find? (fun kv => kv.fst == name)).map Prod.snd

/-- An HTTP response: status code, headers in emission order, body. -/
structure HttpResponse where
  status : Nat
  headers : List (String × String)
  body : String
deriving DecidableEq, Repr

/-- Source `ClientConnHandler` (struct in `relay/server.rs`; only its
`default_headers` field and its `accept` entry point are visible to this
frontend): the portion relevant to `call` is the header map the response
builder is seeded with. -/
structure ClientConnHandler where
  default_headers : List (String × String)
deriving DecidableEq, Repr

/-- What `ClientConnHandler::call` did besides answering: either nothing,
or it spawned the upgrade continuation for the given protocol. -/
inductive UpgradeAction where
  | none
  | scheduled (p : Protocol)
deriving DecidableEq, Repr

/-- A response whose headers are the builder headers followed by the
headers added afterwards, as `http::response::Builder::header` appends. -/
def respond (builder extra : List (String × String)) (status : Nat)
    (body : String) : HttpResponse :=
  { status := status, headers := builder ++ extra, body := body }

/-- Source `ClientConnHandler::call`: seed the builder with the default
headers; reject with 400 when the Upgrade header is absent or unknown; for
WebSocket additionally require `Sec-WebSocket-Key` and a supported
`Sec-WebSocket-Version` (advertising the supported version on mismatch);
otherwise spawn the upgrade continuation and answer 101 with the matching
Upgrade token, plus the accept key and `Connection: upgrade` for
WebSocket. -/
def clientConnHandlerCall (hdl : ClientConnHandler) (req : HttpRequest) :
    HttpResponse × UpgradeAction :=
  let builder := hdl.default_headers
  match (getHeader req "Upgrade").bind Protocol.parse_header with
  | Option.none => (respond builder [] 400 "", UpgradeAction.none)
  | some protocol =>
    if protocol = Protocol.Websocket then
      match getHeader req "Sec-WebSocket-Key" with
      | Option.none => (respond builder [] 400 "", UpgradeAction.none)
      | some key =>
        match getHeader req "Sec-WebSocket-Version" with
        | Option.none => (respond builder [] 400 "", UpgradeAction.none)
        | some version =>
          if version ≠ SUPPORTED_WEBSOCKET_VERSION then
            (respond builder [("Sec-WebSocket-Version", SUPPORTED_WEBSOCKET_VERSION)] 400 "",
             UpgradeAction.none)
          else
            (respond builder
               [("Upgrade", protocol.upgrade_header),
                ("Sec-WebSocket-Accept", derive_accept_key key),
                ("Connection", "upgrade")]
               101 "switching to websocket protocol",
             UpgradeAction.scheduled protocol)
    else
      (respond builder [("Upgrade", protocol.upgrade_header)] 101 "",
       UpgradeAction.scheduled protocol)

/-! ## Upgrade handoff -/

/-- The transport beneath the HTTP parser (plain TCP or TLS); its identity
is all the handoff needs. -/
structure MaybeTlsStream where
  id : Nat
deriving DecidableEq, Repr

/-- Source `hyper::upgrade::Upgraded` as `downcast_upgrade` always sees it
on this server: the `TokioIo<MaybeTlsStream>` transport together with the
residual read buffer the HTTP engine surrendered (`parts.read_buf`). -/
structure Upgraded where
  io : MaybeTlsStream
  read_buf : List Nat
deriving DecidableEq, Repr

/-- Record of the relay backend invocation `conn_handler.accept(self, io)`. -/
inductive AcceptCall where
  | accept (p : Protocol) (io : MaybeTlsStream)
deriving DecidableEq, Repr

/-- Source `downcast_upgrade`: recovers the transport and the residual read
buffer.  The downcast cannot fail here because this server always wraps a
`MaybeTlsStream`. -/
def downcast_upgrade (u : Upgraded) : MaybeTlsStream × List Nat :=
  (u.io, u.read_buf)

/-- Source `Protocol::relay_connection_handler`: downcast the upgraded
connection, require the surrendered read buffer to be empty, then hand the
transport to the relay backend via `accept`. -/
def relay_connection_handler (p : Protocol) (u : Upgraded) :
    Except String AcceptCall :=
  let parts := downcast_upgrade u
  if parts.snd.isEmpty then Except.ok (AcceptCall.accept p parts.fst)
  else Except.error "can not deal with buffered data yet"

/-! ## Router and service dispatch -/

/-- Source `HyperHandler`: a responder from the request and a response
builder (modelled by the headers it already carries) to a response. -/
def HyperHandler : Type :=
  HttpRequest → List (String × String) → Except String HttpResponse

/-- Source `Handlers`: the user route map keyed by `(method, path)`.
Modelled as an association list; route keys are unique by construction. -/
def Handlers : Type := List ((String × String) × HyperHandler)

/-- Source `RelayHandler`: action to take when a connection is made at the
relay endpoint. -/
inductive RelayHandler where
  | ConnHandler (h : ClientConnHandler)
  | Override (f : HyperHandler)

/-- Source `Inner`: the shared state of `RelayService`. -/
structure Inner where
  relay_handler : RelayHandler
  not_found_fn : HyperHandler
  handlers : Handlers
  headers : List (String × String)

/-- Source `Inner::default_response`: a builder with every configured
default header already applied. -/
def Inner.default_response (inner : Inner) : List (String × String) :=
  inner.headers

/-- Lookup in the user route map, as `HashMap::get` on the key
`(method, path)`. -/
def lookupHandler (hs : Handlers) (method path : String) : Option HyperHandler :=
  (hs.find? (fun kv => kv.fst == (method, path))).map Prod.snd

/-- Source default `not_found_fn` built in `ServerBuilder::spawn` when none
is supplied: re-applies the captured default headers to the passed builder
and answers 404 with body Not Found. -/
def defaultNotFound (h : List (String × String)) : HyperHandler :=
  fun _req builder => Except.ok (respond builder h 404 "Not Found")

/-- Which responder a dispatch ended in. -/
inductive HandledBy where
  | relayConn
  | relayOverride
  | user
  | notFound
deriving DecidableEq, Repr

/-- Outcome of `RelayService::call`: the response (or responder error), the
upgrade action, and which responder handled the request. -/
structure DispatchResult where
  response : Except String HttpResponse
  upgrade : UpgradeAction
  handledBy : HandledBy

/-- Source `RelayService::call`: requests with method GET on `RELAY_PATH`
or `LEGACY_RELAY_PATH` go to the relay handler (override or connection
handler); otherwise the user route map is consulted; otherwise the
not-found responder runs.  Every non-relay responder receives a builder
pre-populated with the default headers. -/
def relayServiceCall (inner : Inner) (req : HttpRequest) : DispatchResult :=
  if req.method = "GET" ∧ (req.path = LEGACY_RELAY_PATH ∨ req.path = RELAY_PATH) then
    match inner.relay_handler with
    | RelayHandler.Override f =>
        { response := f req inner.default_response,
          upgrade := UpgradeAction.none,
          handledBy := HandledBy.relayOverride }
    | RelayHandler.ConnHandler h =>
        let r := clientConnHandlerCall h req
        { response := Except.ok r.fst, upgrade := r.snd,
          handledBy := HandledBy.relayConn }
  else
    match lookupHandler inner.handlers req.method req.path with
    | some f =>
        { response := f req inner.default_response,
          upgrade := UpgradeAction.none, handledBy := HandledBy.user }
    | Option.none =>
        { response := inner.not_found_fn req inner.default_response,
          upgrade := UpgradeAction.none, handledBy := HandledBy.notFound }

/-! ## Server construction -/

/-- Source `SecretKey`: only its presence matters to this frontend. -/
structure SecretKey where
  id : Nat
deriving DecidableEq, Repr

/-- Source `ServerBuilder`: the configuration fields that determine the
service (address and TLS configuration are orthogonal to the claims). -/
structure ServerBuilder where
  secret_key : Option SecretKey
  handlers : Handlers
  relay_override : Option HyperHandler
  headers : List (String × String)
  not_found_fn : Option HyperHandler

/-- Source `ServerBuilder::spawn`, synchronous prefix: fail unless a secret
key or a relay override is configured; derive the relay handler (the secret
key wins, yielding the connection handler seeded with the default headers);
fall back to the default not-found responder; assemble the service state.
Listener binding and task spawning follow and are orthogonal. -/
def ServerBuilder.spawnService (b : ServerBuilder) : Except String Inner :=
  if b.secret_key.isSome || b.relay_override.isSome then
    match b.secret_key with
    | some _sk =>
      Except.ok
        { relay_handler := RelayHandler.ConnHandler { default_headers := b.headers },
          not_found_fn := b.not_found_fn.getD (defaultNotFound b.headers),
          handlers := b.handlers, headers := b.headers }
    | Option.none =>
      match b.relay_override with
      | some f =>
        Except.ok
          { relay_handler := RelayHandler.Override f,
            not_found_fn := b.not_found_fn.getD (defaultNotFound b.headers),
            handlers := b.handlers, headers := b.headers }
      | Option.none =>
        Except.error "no relay handler override but also no secret key"
  else
    Except.error
      "Must provide a SecretKey for the relay server OR pass in an override function for the relay endpoint"

/-! ## Supervisor loop and shutdown

`ServerState::serve` spawns a supervisor task running a `select` loop with
`biased` polling: the cancellation arm is polled before the accept arm.
After the loop exits the straight-line shutdown sequence runs: close the
relay backend if present, then drain the connection task set, then log and
return.  The embedding folds a finite schedule of per-iteration readiness
observations into the trace of observable events. -/

/-- Result of one `listener.accept()` poll. -/
inductive AcceptOutcome where
  | conn (id : Nat)
  | failed
deriving DecidableEq, Repr

/-- One iteration of the supervisor loop: whether the cancellation token
is ready, and what the accept arm would yield. -/
structure LoopStep where
  cancelReady : Bool
  accept : AcceptOutcome
deriving DecidableEq, Repr

/-- Observable events of the supervisor task, in order of occurrence. -/
inductive ServeEvent where
  | spawned (id : Nat)
  | acceptError
  | loopExited
  | relayClosed
  | tasksDrained
  | finished
deriving DecidableEq, Repr

/-- Modelled from the spec and the tokio documentation of `biased`
`select`: arms are polled in declaration order, so a pending cancellation
is taken even when the accept arm is simultaneously ready. -/
def selectBiased (step : LoopStep) : Bool := step.cancelReady

/-- The straight-line shutdown tail of the supervisor task: close the
relay backend when present, then drain the task set, then finish. -/
def shutdownEvents (hasServer : Bool) : List ServeEvent :=
  (if hasServer then [ServeEvent.relayClosed] else []) ++
  [ServeEvent.tasksDrained, ServeEvent.finished]

/-- Source `ServerState::serve`, supervisor loop body: each iteration polls
cancellation first (`biased`), exiting the loop when it fired; otherwise
the accept result spawns a connection task or logs an accept error.  An
exhausted schedule models a still-running loop. -/
def serveEvents (hasServer : Bool) : List LoopStep → List ServeEvent
  | [] => []
  | step :: rest =>
    if selectBiased step then ServeEvent.loopExited :: shutdownEvents hasServer
    else
      (match step.accept with
       | AcceptOutcome.conn id => ServeEvent.spawned id
       | AcceptOutcome.failed => ServeEvent.acceptError) :: serveEvents hasServer rest

/-! ## Concrete fixtures used by witnesses and counterexamples -/

/-- Scenario S2 request: a well-formed WebSocket upgrade. -/
def wsUpgradeRequest : HttpRequest :=
  { method := "GET", path := "/relay",
    headers := [("Host", "x"), ("Upgrade", "websocket"),
                ("Sec-WebSocket-Version", "13"),
                ("Sec-WebSocket-Key", "dGhlIHNhbXBsZSBub25jZQ==")] }

/-- Scenario S4 request: WebSocket upgrade with unsupported version 12. -/
def wsWrongVersionRequest : HttpRequest :=
  { method := "GET", path := "/relay",
    headers := [("Host", "x"), ("Upgrade", "websocket"),
                ("Sec-WebSocket-Version", "12"),
                ("Sec-WebSocket-Key", "dGhlIHNhbXBsZSBub25jZQ==")] }

/-- A WebSocket upgrade carrying an unsupported version but no
`Sec-WebSocket-Key`: the key check fires first in the source. -/
def wsNoKeyWrongVersionRequest : HttpRequest :=
  { method := "GET", path := "/relay",
    headers := [("Host", "x"), ("Upgrade", "websocket"),
                ("Sec-WebSocket-Version", "12")] }

/-- Scenario S3 request: no Upgrade header at all. -/
def noUpgradeRequest : HttpRequest :=
  { method := "GET", path := "/relay", headers := [("Host", "x")] }

/-- Scenario S1 request: the custom relay upgrade token. -/
def relayUpgradeRequest : HttpRequest :=
  { method := "GET", path := "/relay",
    headers := [("Host", "x"), ("Upgrade", "iroh derp http"),
                ("Connection", "upgrade")] }

/-- A POST to the relay path. -/
def postRelayRequest : HttpRequest :=
  { method := "POST", path := "/relay", headers := [] }

/-- A responder answering 200 with the builder headers and an empty body. -/
def okResponder : HyperHandler :=
  fun _req builder => Except.ok (respond builder [] 200 "")

/-- A service whose user route map binds `(POST, /relay)`, which the
builder permits: `request_handler` accepts any method and path. -/
def postRelayInner : Inner :=
  { relay_handler := RelayHandler.ConnHandler { default_headers := [] },
    not_found_fn := defaultNotFound [],
    handlers := [(("POST", "/relay"), okResponder)],
    headers := [] }

/-- A service with an empty user route map and the default not-found
responder. -/
def plainInner : Inner :=
  { relay_handler := RelayHandler.ConnHandler { default_headers := [] },
    not_found_fn := defaultNotFound [],
    handlers := [], headers := [] }

/-- A builder configured with both a secret key and a relay override. -/
def dualBuilder : ServerBuilder :=
  { secret_key := some { id := 0 }, handlers := [],
    relay_override := some okResponder,
    headers := [("Server", "iroh-relay")], not_found_fn := Option.none }

/-- C7: the token ↔ variant mapping is total and injective on the
recognized set: `parse_header` round-trips on `upgrade_header`, distinct
variants have distinct tokens, and any other header value parses to no
variant. -/
theorem protocol_header_bijection :
    (∀ p : Protocol, Protocol.parse_header p.upgrade_header = some p) ∧
    (∀ p q : Protocol, p.upgrade_header = q.upgrade_header → p = q) ∧
    (∀ s : String, s ≠ Protocol.Relay.upgrade_header →
      s ≠ Protocol.Websocket.upgrade_header → Protocol.parse_header s = none) := by
  refine ⟨?_, ?_, ?_⟩
  · intro p; cases p <;> simp [Protocol.parse_header, Protocol.upgrade_header,
      HTTP_UPGRADE_PROTOCOL, WEBSOCKET_UPGRADE_PROTOCOL]
  · intro p q h; cases p <;> cases q <;> simp_all [Protocol.upgrade_header,
      HTTP_UPGRADE_PROTOCOL, WEBSOCKET_UPGRADE_PROTOCOL]
  · intro s h1 h2; simp [Protocol.parse_header, h1, h2]

/-- Closed witness for C7 at concrete inputs. -/
theorem protocol_header_bijection_witness :
    Protocol.parse_header (Protocol.Relay.upgrade_header) = some Protocol.Relay ∧
    Protocol.Relay = Protocol.Relay ∧
    Protocol.parse_header "chat" = none :=
  ⟨protocol_header_bijection.1 Protocol.Relay,
   protocol_header_bijection.2.1 Protocol.Relay Protocol.Relay rfl,
   protocol_header_bijection.2.2 "chat" (by decide) (by decide)⟩

/-- Sanity check: the SHA-1 implementation reproduces the RFC 3174 digest
of the string abc. -/
theorem sha1_rfc3174_vector :
    sha1 (strBytes "abc") =
      [169, 153, 62, 54, 71, 6, 129, 106, 186, 62, 37, 113,
       120, 80, 194, 108, 156, 208, 216, 157] := rfl

/-- Sanity check: the accept-key derivation reproduces the RFC 6455
handshake example, scenario S2 of the spec. -/
theorem derive_accept_key_rfc6455_vector :
    derive_accept_key "dGhlIHNhbXBsZSBub25jZQ==" = "s3pPLMBiTxaQ9kYGzzhZRbK+xOo=" := rfl

/-- C2: the relay backend accept is invoked if and only if the HTTP engine
surrendered an empty residual read buffer; a non-empty buffer aborts the
connection with a diagnostic error and the backend is never invoked. -/
theorem relay_handoff_buffer_policy (p : Protocol) (u : Upgraded) :
    (relay_connection_handler p u = Except.ok (AcceptCall.accept p u.io) ↔
      u.read_buf = []) ∧
    (u.read_buf ≠ [] →
      relay_connection_handler p u =
        Except.error "can not deal with buffered data yet") := by
  cases hbuf : u.read_buf with
  | nil => simp [relay_connection_handler, downcast_upgrade, hbuf]
  | cons a l => simp [relay_connection_handler, downcast_upgrade, hbuf]

/-- Closed witness for C2 at a concrete transport and buffer. -/
theorem relay_handoff_buffer_policy_witness :
    relay_connection_handler Protocol.Relay
        { io := { id := 7 }, read_buf := [1] } =
      Except.error "can not deal with buffered data yet" :=
  (relay_handoff_buffer_policy Protocol.Relay
    { io := { id := 7 }, read_buf := [1] }).2 (by decide)

/-- C3: a request whose Upgrade header is absent or matches no known token
is answered 400 with the default headers and an empty body, and no upgrade
continuation is scheduled. -/
theorem missing_upgrade_rejected (hdl : ClientConnHandler) (req : HttpRequest)
    (h : ∀ v, getHeader req "Upgrade" = some v → Protocol.parse_header v = Option.none) :
    clientConnHandlerCall hdl req =
      ({ status := 400, headers := hdl.default_headers, body := "" },
       UpgradeAction.none) := by
  have hb : (getHeader req "Upgrade").bind Protocol.parse_header = Option.none := by
    cases hu : getHeader req "Upgrade" with
    | none => rfl
    | some v => simpa using h v hu
  unfold clientConnHandlerCall
  rw [hb]
  simp [respond]

/-- Closed witness for C3 at the scenario S3 request. -/
theorem missing_upgrade_rejected_witness :
    clientConnHandlerCall { default_headers := [] } noUpgradeRequest =
      ({ status := 400, headers := [], body := "" }, UpgradeAction.none) :=
  missing_upgrade_rejected { default_headers := [] } noUpgradeRequest
    (fun v hv => by
      have h0 : getHeader noUpgradeRequest "Upgrade" = Option.none := by decide
      rw [h0] at hv
      exact Option.noConfusion hv)

/-- C8: construction fails exactly when neither a secret key nor a relay
override is configured. -/
theorem spawn_requires_relay_binding (b : ServerBuilder) :
    (∃ e, b.spawnService = Except.error e) ↔
      (b.secret_key = Option.none ∧ b.relay_override = Option.none) := by
  cases hsk : b.secret_key <;> cases hro : b.relay_override <;>
    simp [ServerBuilder.spawnService, hsk, hro]

/-- C1: every upgrade request whose Upgrade header matches a known token
(and, for WebSocket, carrying a key and the supported version) is answered
101 with an Upgrade header equal to that token; for WebSocket the response
additionally carries Connection upgrade and the RFC 6455 accept key
base64(sha1(key concatenated with the magic GUID)); for Relay no such
extra headers are added. -/
theorem upgrade_success_response (hdl : ClientConnHandler) (req : HttpRequest)
    (tok : String) (p : Protocol)
    (htok : getHeader req "Upgrade" = some tok)
    (hp : Protocol.parse_header tok = some p)
    (hws : p = Protocol.Websocket →
      ∃ k, getHeader req "Sec-WebSocket-Key" = some k ∧
        getHeader req "Sec-WebSocket-Version" = some SUPPORTED_WEBSOCKET_VERSION) :
    (clientConnHandlerCall hdl req).fst.status = 101 ∧
    ("Upgrade", p.upgrade_header) ∈ (clientConnHandlerCall hdl req).fst.headers ∧
    (clientConnHandlerCall hdl req).snd = UpgradeAction.scheduled p ∧
    (∀ k, p = Protocol.Websocket → getHeader req "Sec-WebSocket-Key" = some k →
      ("Connection", "upgrade") ∈ (clientConnHandlerCall hdl req).fst.headers ∧
      ("Sec-WebSocket-Accept", base64Encode (sha1 (strBytes k ++ strBytes WS_MAGIC)))
        ∈ (clientConnHandlerCall hdl req).fst.headers) ∧
    (p = Protocol.Relay →
      (clientConnHandlerCall hdl req).fst.headers =
        hdl.default_headers ++ [("Upgrade", p.upgrade_header)]) := by
  have hb : (getHeader req "Upgrade").bind Protocol.parse_header = some p := by
    rw [htok]; simpa using hp
  cases p with
  | Relay =>
    have hcall : clientConnHandlerCall hdl req =
        (respond hdl.default_headers [("Upgrade", Protocol.Relay.upgrade_header)] 101 "",
         UpgradeAction.scheduled Protocol.Relay) := by
      unfold clientConnHandlerCall
      rw [hb]
      simp
    refine ⟨by simp [hcall, respond], by simp [hcall, respond], by simp [hcall], ?_, ?_⟩
    · intro k hk
      exact absurd hk (by simp)
    · intro _
      simp [hcall, respond]
  | Websocket =>
    obtain ⟨k, hk, hv⟩ := hws rfl
    have hcall : clientConnHandlerCall hdl req =
        (respond hdl.default_headers
           [("Upgrade", Protocol.Websocket.upgrade_header),
            ("Sec-WebSocket-Accept", derive_accept_key k),
            ("Connection", "upgrade")]
           101 "switching to websocket protocol",
         UpgradeAction.scheduled Protocol.Websocket) := by
      unfold clientConnHandlerCall
      rw [hb]
      simp [hk, hv]
    refine ⟨by simp [hcall, respond], by simp [hcall, respond], by simp [hcall], ?_, ?_⟩
    · intro k2 _ hk2
      have hkk : k2 = k := by
        rw [hk] at hk2
        exact (Option.some_injective _ hk2.symm)
      subst hkk
      constructor
      · simp [hcall, respond]
      · simp [hcall, respond, derive_accept_key, base64Encode]
    · intro habs
      exact absurd habs (by simp)

/-- Closed witness for C1 at the scenario S2 WebSocket request. -/
theorem upgrade_success_response_witness :
    (clientConnHandlerCall { default_headers := [] } wsUpgradeRequest).fst.status = 101 ∧
    ("Upgrade", Protocol.Websocket.upgrade_header) ∈
      (clientConnHandlerCall { default_headers := [] } wsUpgradeRequest).fst.headers ∧
    (clientConnHandlerCall { default_headers := [] } wsUpgradeRequest).snd =
      UpgradeAction.scheduled Protocol.Websocket ∧
    (∀ k, Protocol.Websocket = Protocol.Websocket →
      getHeader wsUpgradeRequest "Sec-WebSocket-Key" = some k →
      ("Connection", "upgrade") ∈
        (clientConnHandlerCall { default_headers := [] } wsUpgradeRequest).fst.headers ∧
      ("Sec-WebSocket-Accept", base64Encode (sha1 (strBytes k ++ strBytes WS_MAGIC)))
        ∈ (clientConnHandlerCall { default_headers := [] } wsUpgradeRequest).fst.headers) ∧
    (Protocol.Websocket = Protocol.Relay →
      (clientConnHandlerCall { default_headers := [] } wsUpgradeRequest).fst.headers =
        [] ++ [("Upgrade", Protocol.Websocket.upgrade_header)]) :=
  upgrade_success_response { default_headers := [] } wsUpgradeRequest "websocket"
    Protocol.Websocket (by decide) (by decide)
    (fun _ => ⟨"dGhlIHNhbXBsZSBub25jZQ==", by decide, by decide⟩)

/-- C4 counterexample: a WebSocket upgrade with version 12 but no
`Sec-WebSocket-Key` satisfies the antecedent of the claim, yet its 400
response does not carry the advertised `Sec-WebSocket-Version` header,
because the key check fires first in the source. -/
theorem websocket_version_counterexample :
    getHeader wsNoKeyWrongVersionRequest "Upgrade" = some "websocket" ∧
    Protocol.parse_header "websocket" = some Protocol.Websocket ∧
    getHeader wsNoKeyWrongVersionRequest "Sec-WebSocket-Version" = some "12" ∧
    ("12" : String) ≠ SUPPORTED_WEBSOCKET_VERSION ∧
    (clientConnHandlerCall { default_headers := [] }
        wsNoKeyWrongVersionRequest).fst.status = 400 ∧
    ("Sec-WebSocket-Version", SUPPORTED_WEBSOCKET_VERSION) ∉
      (clientConnHandlerCall { default_headers := [] }
        wsNoKeyWrongVersionRequest).fst.headers := by
  decide

/-- C4 amended: a WebSocket upgrade that carries a `Sec-WebSocket-Key` and
whose `Sec-WebSocket-Version` is present but not the supported constant is
answered 400 with a `Sec-WebSocket-Version` header advertising the
supported version, and no upgrade is scheduled. -/
theorem websocket_version_rejected (hdl : ClientConnHandler) (req : HttpRequest)
    (tok k v : String)
    (htok : getHeader req "Upgrade" = some tok)
    (hp : Protocol.parse_header tok = some Protocol.Websocket)
    (hk : getHeader req "Sec-WebSocket-Key" = some k)
    (hv : getHeader req "Sec-WebSocket-Version" = some v)
    (hne : v ≠ SUPPORTED_WEBSOCKET_VERSION) :
    (clientConnHandlerCall hdl req).fst.status = 400 ∧
    ("Sec-WebSocket-Version", SUPPORTED_WEBSOCKET_VERSION) ∈
      (clientConnHandlerCall hdl req).fst.headers ∧
    (clientConnHandlerCall hdl req).snd = UpgradeAction.none := by
  have hb : (getHeader req "Upgrade").bind Protocol.parse_header =
      some Protocol.Websocket := by
    rw [htok]; simpa using hp
  have hcall : clientConnHandlerCall hdl req =
      (respond hdl.default_headers
         [("Sec-WebSocket-Version", SUPPORTED_WEBSOCKET_VERSION)] 400 "",
       UpgradeAction.none) := by
    unfold clientConnHandlerCall
    rw [hb]
    simp [hk, hv, hne]
  refine ⟨by simp [hcall, respond], by simp [hcall, respond], by simp [hcall]⟩

/-- Closed witness for the amended C4 at the scenario S4 request. -/
theorem websocket_version_rejected_witness :
    (clientConnHandlerCall { default_headers := [] } wsWrongVersionRequest).fst.status = 400 ∧
    ("Sec-WebSocket-Version", SUPPORTED_WEBSOCKET_VERSION) ∈
      (clientConnHandlerCall { default_headers := [] } wsWrongVersionRequest).fst.headers ∧
    (clientConnHandlerCall { default_headers := [] } wsWrongVersionRequest).snd =
      UpgradeAction.none :=
  websocket_version_rejected { default_headers := [] } wsWrongVersionRequest
    "websocket" "dGhlIHNhbXBsZSBub25jZQ==" "12"
    (by decide) (by decide) (by decide) (by decide) (by decide)

/-- C5: every configured default header occurs in every response the core
originates: all responses of the upgrade handler (the 400 rejections and
the 101 switching responses), and the default 404 response, which
re-applies the configured headers on top of the pre-populated builder. -/
theorem default_headers_present :
    (∀ n v (hdl : ClientConnHandler) (req : HttpRequest),
      (n, v) ∈ hdl.default_headers →
      (n, v) ∈ (clientConnHandlerCall hdl req).fst.headers) ∧
    (∀ n v (hs : List (String × String)) (req : HttpRequest),
      (n, v) ∈ hs →
      ∃ resp, defaultNotFound hs req hs = Except.ok resp ∧
        resp.status = 404 ∧ (n, v) ∈ resp.headers) := by
  constructor
  · intro n v hdl req hmem
    unfold clientConnHandlerCall
    repeat' split
    all_goals simp [respond, List.mem_append, hmem]
  · intro n v hs req hmem
    exact ⟨_, rfl, rfl, by simp [respond, defaultNotFound, List.mem_append, hmem]⟩

/-- Closed witness for C5 at a concrete configured header. -/
theorem default_headers_present_witness :
    ("Server", "iroh-relay") ∈
      (clientConnHandlerCall { default_headers := [("Server", "iroh-relay")] }
        noUpgradeRequest).fst.headers :=
  default_headers_present.1 "Server" "iroh-relay"
    { default_headers := [("Server", "iroh-relay")] } noUpgradeRequest (by decide)

/-- C6 counterexample: the builder accepts a user route for
`(POST, /relay)`; a POST to the relay path then dispatches to that user
responder and the response status is 200, not 404. -/
theorem non_get_relay_counterexample :
    postRelayRequest.method ≠ "GET" ∧
    postRelayRequest.path = RELAY_PATH ∧
    (relayServiceCall postRelayInner postRelayRequest).handledBy = HandledBy.user ∧
    (relayServiceCall postRelayInner postRelayRequest).response =
      Except.ok { status := 200, headers := [], body := "" } := by
  refine ⟨by decide, by decide, rfl, rfl⟩

/-- C6 amended: a non-GET request on a relay path falls through the relay
route; when additionally no user route is registered for its method and
path and the not-found responder is the default one, the response status
is 404. -/
theorem non_get_relay_not_found (inner : Inner) (req : HttpRequest)
    (hm : req.method ≠ "GET")
    (hp : req.path = LEGACY_RELAY_PATH ∨ req.path = RELAY_PATH)
    (hu : lookupHandler inner.handlers req.method req.path = Option.none)
    (hn : inner.not_found_fn = defaultNotFound inner.headers) :
    (relayServiceCall inner req).handledBy = HandledBy.notFound ∧
    (relayServiceCall inner req).response =
      Except.ok { status := 404, headers := inner.headers ++ inner.headers,
                  body := "Not Found" } := by
  have hcond : ¬(req.method = "GET" ∧
      (req.path = LEGACY_RELAY_PATH ∨ req.path = RELAY_PATH)) :=
    fun hand => hm hand.1
  unfold relayServiceCall
  rw [if_neg hcond, hu, hn]
  simp [defaultNotFound, respond, Inner.default_response]

/-- Closed witness for the amended C6 at a POST to the relay path against
a service with no user routes and the default not-found responder. -/
theorem non_get_relay_not_found_witness :
    (relayServiceCall plainInner postRelayRequest).handledBy = HandledBy.notFound ∧
    (relayServiceCall plainInner postRelayRequest).response =
      Except.ok { status := 404, headers := [] ++ [], body := "Not Found" } :=
  non_get_relay_not_found plainInner postRelayRequest (by decide)
    (Or.inr (by decide)) rfl rfl

/-- C9: the supervisor exits the accept loop before the relay backend is
closed, the backend close completes before the task-set drain, the task
resolves only after the drain, no connection is accepted after the loop
exits, and the biased select makes a pending cancellation win over a
simultaneously ready accept. -/
theorem supervisor_shutdown_order :
    (∀ (hasServer : Bool) (id : Nat) (rest : List LoopStep),
      serveEvents hasServer
          ({ cancelReady := true, accept := AcceptOutcome.conn id } :: rest) =
        ServeEvent.loopExited :: shutdownEvents hasServer) ∧
    (∀ sched : List LoopStep, ServeEvent.loopExited ∈ serveEvents true sched →
      ∃ pre, serveEvents true sched =
          pre ++ [ServeEvent.loopExited, ServeEvent.relayClosed,
                  ServeEvent.tasksDrained, ServeEvent.finished] ∧
        ∀ e ∈ pre, (∃ id, e = ServeEvent.spawned id) ∨ e = ServeEvent.acceptError) := by
  constructor
  · intro hasServer id rest
    rfl
  · intro sched
    induction sched with
    | nil => intro h; simp [serveEvents] at h
    | cons step rest ih =>
      intro h
      by_cases hc : step.cancelReady
      · refine ⟨[], ?_, by simp⟩
        simp [serveEvents, selectBiased, hc, shutdownEvents]
      · cases hacc : step.accept with
        | conn id =>
          have htr : serveEvents true (step :: rest) =
              ServeEvent.spawned id :: serveEvents true rest := by
            simp [serveEvents, selectBiased, hc, hacc]
          rw [htr] at h
          have hmem : ServeEvent.loopExited ∈ serveEvents true rest := by
            rcases List.mem_cons.mp h with h1 | h2
            · exact absurd h1 (by simp)
            · exact h2
          obtain ⟨pre, heq, hpre⟩ := ih hmem
          refine ⟨ServeEvent.spawned id :: pre, by rw [htr, heq, List.cons_append], ?_⟩
          intro e he
          rcases List.mem_cons.mp he with h1 | h2
          · exact Or.inl ⟨id, h1⟩
          · exact hpre e h2
        | failed =>
          have htr : serveEvents true (step :: rest) =
              ServeEvent.acceptError :: serveEvents true rest := by
            simp [serveEvents, selectBiased, hc, hacc]
          rw [htr] at h
          have hmem : ServeEvent.loopExited ∈ serveEvents true rest := by
            rcases List.mem_cons.mp h with h1 | h2
            · exact absurd h1 (by simp)
            · exact h2
          obtain ⟨pre, heq, hpre⟩ := ih hmem
          refine ⟨ServeEvent.acceptError :: pre, by rw [htr, heq, List.cons_append], ?_⟩
          intro e he
          rcases List.mem_cons.mp he with h1 | h2
          · exact Or.inr h1
          · exact hpre e h2

/-- Closed witness for C9: a schedule that accepts one connection and is
then cancelled simultaneously with a ready accept. -/
theorem supervisor_shutdown_order_witness :
    ∃ pre, serveEvents true
        [{ cancelReady := false, accept := AcceptOutcome.conn 1 },
         { cancelReady := true, accept := AcceptOutcome.conn 2 }] =
      pre ++ [ServeEvent.loopExited, ServeEvent.relayClosed,
              ServeEvent.tasksDrained, ServeEvent.finished] ∧
      ∀ e ∈ pre, (∃ id, e = ServeEvent.spawned id) ∨ e = ServeEvent.acceptError :=
  supervisor_shutdown_order.2
    [{ cancelReady := false, accept := AcceptOutcome.conn 1 },
     { cancelReady := true, accept := AcceptOutcome.conn 2 }] (by decide)

/-- C10: with both a secret key and a relay override configured, spawn
succeeds, the relay endpoint is served by the connection handler derived
from the secret key (seeded with the default headers), and the override
responder is never invoked on any request. -/
theorem dual_config_secret_key_wins (b : ServerBuilder) (sk : SecretKey)
    (f : HyperHandler)
    (hsk : b.secret_key = some sk) (hro : b.relay_override = some f) :
    ∃ inner, b.spawnService = Except.ok inner ∧
      inner.relay_handler = RelayHandler.ConnHandler { default_headers := b.headers } ∧
      (∀ req, (relayServiceCall inner req).handledBy ≠ HandledBy.relayOverride) ∧
      (∀ req, req.method = "GET" →
        (req.path = LEGACY_RELAY_PATH ∨ req.path = RELAY_PATH) →
        (relayServiceCall inner req).handledBy = HandledBy.relayConn) := by
  have hspawn : b.spawnService = Except.ok
      { relay_handler := RelayHandler.ConnHandler { default_headers := b.headers },
        not_found_fn := b.not_found_fn.getD (defaultNotFound b.headers),
        handlers := b.handlers, headers := b.headers } := by
    unfold ServerBuilder.spawnService
    rw [hsk]
    simp
  refine ⟨_, hspawn, rfl, ?_, ?_⟩
  · intro req
    unfold relayServiceCall
    split
    · simp
    · split <;> simp
  · intro req hm hp
    unfold relayServiceCall
    rw [if_pos ⟨hm, hp⟩]

/-- Closed witness for C10 at a builder configured with both a secret key
and an override responder. -/
theorem dual_config_secret_key_wins_witness :
    ∃ inner, dualBuilder.spawnService = Except.ok inner ∧
      inner.relay_handler =
        RelayHandler.ConnHandler { default_headers := dualBuilder.headers } ∧
      (∀ req, (relayServiceCall inner req).handledBy ≠ HandledBy.relayOverride) ∧
      (∀ req, req.method = "GET" →
        (req.path = LEGACY_RELAY_PATH ∨ req.path = RELAY_PATH) →
        (relayServiceCall inner req).handledBy = HandledBy.relayConn) :=
  dual_config_secret_key_wins dualBuilder { id := 0 } okResponder rfl rfl

end RelayHttp
